import Mathlib

/-!
Verification of the lab-creation pipeline orchestrator (`orchestrator/` of the
repository) against its specification.

The development shallowly embeds the Python source:

* a `JValue` type models Python JSON values (`json.loads` / `json.dumps`);
* `extract_json_from_markdown` models `api_server.extract_json_from_markdown`,
  including the non-greedy fence regex used there and in
  `adk_agents/session_state_writer.py`;
* `AgentT` and `create_lab_pipeline` model the agent tree built in
  `adk_agents/pipeline.py`;
* `validPatchPlan` models the pydantic `PatchPlan` schema of
  `schemas/patch_plan.py`;
* `pollJob`, `fetchValidationArtifacts` and `runValidator` model
  `adk_agents/validator.py` and `tools/artifacts.py`;
* `writerRun` models `SessionStateWriterAgent.run_async` of
  `adk_agents/session_state_writer.py`.

Machine integers do not occur (all counters are small non-negative ints), so
`Nat`/`Int` are used directly.  Fallible operations return `Option`/`Except`;
Python code paths that catch every exception are translated to total functions
whose error branches correspond to the `except` blocks of the source.
-/

/-! ## Python JSON values

`JValue` models the values produced by `json.loads`: `None`, booleans,
integers, strings, lists and dicts (dicts as association lists in insertion
order, which is how CPython iterates them).  JSON float literals never occur
in the artifacts treated by the claims and are not modelled: the parser
rejects them. -/

inductive JValue where
  | null : JValue
  | bool (b : Bool) : JValue
  | num (n : Int) : JValue
  | str (s : String) : JValue
  | arr (elems : List JValue) : JValue
  | obj (fields : List (String × JValue)) : JValue
deriving Repr

/-- Python truthiness (`bool(x)`) of a JSON value: `None`, `False`, `0`, `""`,
`[]` and `{}` are falsy, everything else truthy. -/
def truthyJ : JValue → Bool
  | .null => false
  | .bool b => b
  | .num n => n != 0
  | .str s => !s.data.isEmpty
  | .arr l => !l.isEmpty
  | .obj l => !l.isEmpty

/-- Python truthiness of an optional value, `None` (absence) being falsy. -/
def truthyOptJ : Option JValue → Bool
  | none => false
  | some v => truthyJ v

/-! ## `json.loads` (restricted to the JSON subset that occurs here) -/

/-- JSON whitespace accepted by `json.loads` between tokens. -/
def isJsonWs (c : Char) : Bool :=
  c = ' ' || c = '\t' || c = '\n' || c = '\r'

/-- One hexadecimal digit of a `\uXXXX` escape. -/
def parseHexDigit (c : Char) : Option Nat :=
  if '0' ≤ c ∧ c ≤ '9' then some (c.toNat - 48)
  else if 'a' ≤ c ∧ c ≤ 'f' then some (c.toNat - 87)
  else if 'A' ≤ c ∧ c ≤ 'F' then some (c.toNat - 55)
  else none

/-- Body of a JSON string literal (after the opening quote): handles the
escape sequences `json.loads` accepts and rejects raw control characters.
Surrogate-pair decoding of `\uXXXX` escapes is not modelled (no claim touches
non-BMP text). -/
def parseStrAux : List Char → List Char → Option (String × List Char)
  | acc, '"' :: rest => some (String.mk acc.reverse, rest)
  | acc, '\\' :: esc :: rest =>
    if esc = '"' then parseStrAux ('"' :: acc) rest
    else if esc = '\\' then parseStrAux ('\\' :: acc) rest
    else if esc = '/' then parseStrAux ('/' :: acc) rest
    else if esc = 'n' then parseStrAux ('\n' :: acc) rest
    else if esc = 't' then parseStrAux ('\t' :: acc) rest
    else if esc = 'r' then parseStrAux ('\r' :: acc) rest
    else if esc = 'b' then parseStrAux (Char.ofNat 8 :: acc) rest
    else if esc = 'u' then
      match rest with
      | h1 :: h2 :: h3 :: h4 :: rest2 =>
        match parseHexDigit h1, parseHexDigit h2, parseHexDigit h3, parseHexDigit h4 with
        | some a, some b, some c, some d =>
          parseStrAux (Char.ofNat (a * 4096 + b * 256 + c * 16 + d) :: acc) rest2
        | _, _, _, _ => none
      | _ => none
    else if esc = 'f' then parseStrAux (Char.ofNat 12 :: acc) rest
    else none
  | acc, c :: rest => if c.toNat < 32 then none else parseStrAux (c :: acc) rest
  | _, [] => none

/-- Longest digit run at the front of the input. -/
def parseDigits : List Char → List Char × List Char
  | c :: rest =>
    if '0' ≤ c ∧ c ≤ '9' then
      let (ds, r) := parseDigits rest
      (c :: ds, r)
    else ([], c :: rest)
  | [] => ([], [])

/-- Value of a digit run. -/
def digitsToNat (ds : List Char) : Nat :=
  ds.foldl (fun acc c => acc * 10 + (c.toNat - 48)) 0

/-- JSON integer literal.  A fraction or exponent (a Python float) is rejected
rather than modelled; leading zeros are rejected as in `json.loads`. -/
def parseIntLit (cs : List Char) : Option (Int × List Char) :=
  let (neg, cs1) := match cs with
    | '-' :: rest => (true, rest)
    | _ => (false, cs)
  match parseDigits cs1 with
  | ([], _) => none
  | (ds, rest) =>
    if ds.length > 1 ∧ ds.headD '0' = '0' then none
    else
      let ok : Bool := match rest with
        | c :: _ => !(c = '.' || c = 'e' || c = 'E')
        | [] => true
      if ok then
        let n : Int := Int.ofNat (digitsToNat ds)
        some (if neg then -n else n, rest)
      else none

mutual

/-- JSON value at the front of the input (fuel-indexed; `jsonLoadsL` supplies
fuel exceeding any possible nesting depth). -/
def parseVal : Nat → List Char → Option (JValue × List Char)
  | 0, _ => none
  | fuel + 1, cs =>
    match cs.dropWhile isJsonWs with
    | [] => none
    | c :: rest =>
      if c = 'n' then
        if ['u', 'l', 'l'].isPrefixOf rest then some (.null, rest.drop 3) else none
      else if c = 't' then
        if ['r', 'u', 'e'].isPrefixOf rest then some (.bool true, rest.drop 3) else none
      else if c = 'f' then
        if ['a', 'l', 's', 'e'].isPrefixOf rest then some (.bool false, rest.drop 4) else none
      else if c = '"' then
        match parseStrAux [] rest with
        | some (s, r) => some (.str s, r)
        | none => none
      else if c = '[' then
        match rest.dropWhile isJsonWs with
        | ']' :: r => some (.arr [], r)
        | cs2 =>
          match parseArrItems fuel cs2 with
          | some (vs, r) => some (.arr vs, r)
          | none => none
      else if c = '{' then
        match rest.dropWhile isJsonWs with
        | '}' :: r => some (.obj [], r)
        | cs2 =>
          match parseObjItems fuel cs2 with
          | some (kvs, r) => some (.obj kvs, r)
          | none => none
      else
        match parseIntLit (c :: rest) with
        | some (n, r) => some (.num n, r)
        | none => none

/-- Comma-separated array items, consuming the closing bracket. -/
def parseArrItems : Nat → List Char → Option (List JValue × List Char)
  | 0, _ => none
  | fuel + 1, cs =>
    match parseVal fuel cs with
    | some (v, r) =>
      match r.dropWhile isJsonWs with
      | ',' :: r2 =>
        match parseArrItems fuel r2 with
        | some (vs, r3) => some (v :: vs, r3)
        | none => none
      | ']' :: r2 => some ([v], r2)
      | _ => none
    | none => none

/-- Comma-separated object members, consuming the closing brace. -/
def parseObjItems : Nat → List Char → Option (List (String × JValue) × List Char)
  | 0, _ => none
  | fuel + 1, cs =>
    match cs.dropWhile isJsonWs with
    | '"' :: r =>
      match parseStrAux [] r with
      | some (k, r2) =>
        match r2.dropWhile isJsonWs with
        | ':' :: r3 =>
          match parseVal fuel r3 with
          | some (v, r4) =>
            match r4.dropWhile isJsonWs with
            | ',' :: r5 =>
              match parseObjItems fuel r5 with
              | some (kvs, r6) => some ((k, v) :: kvs, r6)
              | none => none
            | '}' :: r5 => some ([(k, v)], r5)
            | _ => none
          | none => none
        | _ => none
      | none => none
    | _ => none

end

/-- `json.loads` on a character list: one value, then only trailing
whitespace; anything else is a `JSONDecodeError` (`none`). -/
def jsonLoadsL (cs : List Char) : Option JValue :=
  match parseVal (cs.length + 1) cs with
  | some (v, r) => if r.dropWhile isJsonWs = [] then some v else none
  | none => none

/-- `json.loads` on a string. -/
def jsonLoads (s : String) : Option JValue :=
  jsonLoadsL s.data

/-! ## `json.dumps` (default separators, `ensure_ascii=True`) -/

/-- One hexadecimal digit character. -/
def hexDigitChar (n : Nat) : Char :=
  if n < 10 then Char.ofNat (48 + n) else Char.ofNat (87 + n)

/-- Escaping of one character inside a dumped string literal. -/
def escapeChar (c : Char) : List Char :=
  if c = '"' then ['\\', '"']
  else if c = '\\' then ['\\', '\\']
  else if c = '\n' then ['\\', 'n']
  else if c = '\t' then ['\\', 't']
  else if c = '\r' then ['\\', 'r']
  else if c.toNat = 8 then ['\\', 'b']
  else if c.toNat = 12 then ['\\', 'f']
  else if c.toNat < 32 ∨ c.toNat > 126 then
    ['\\', 'u', hexDigitChar (c.toNat / 4096 % 16), hexDigitChar (c.toNat / 256 % 16),
      hexDigitChar (c.toNat / 16 % 16), hexDigitChar (c.toNat % 16)]
  else [c]

/-- Dumped string literal, quotes included. -/
def quoteJ (s : String) : String :=
  "\"" ++ String.mk (s.data.foldr (fun c acc => escapeChar c ++ acc) []) ++ "\""

mutual

/-- `json.dumps` with the default separators `", "` and `": "`. -/
def dumpsJ : JValue → String
  | .null => "null"
  | .bool true => "true"
  | .bool false => "false"
  | .num n => toString n
  | .str s => quoteJ s
  | .arr l => "[" ++ dumpsArr l ++ "]"
  | .obj l => "\x7b" ++ dumpsObj l ++ "\x7d"

/-- Array elements of `dumpsJ`. -/
def dumpsArr : List JValue → String
  | [] => ""
  | [v] => dumpsJ v
  | v :: rest => dumpsJ v ++ ", " ++ dumpsArr rest

/-- Object members of `dumpsJ`. -/
def dumpsObj : List (String × JValue) → String
  | [] => ""
  | [(k, v)] => quoteJ k ++ ": " ++ dumpsJ v
  | (k, v) :: rest => quoteJ k ++ ": " ++ dumpsJ v ++ ", " ++ dumpsObj rest

end

/-! ## The markdown fence regex

Both `api_server.extract_json_from_markdown` and
`SessionStateWriterAgent.run_async` search with the same pattern
(`DOTALL`; `[\s\S]` in the writer is the same as `.` under `DOTALL`):
a fence of three backticks, an optional `json` tag, optional whitespace, a
non-greedy brace-delimited capture group, optional whitespace, and a closing
fence.  `re.search` semantics: the leftmost start position admitting a match
wins, and there the capture is as short as possible. -/

/-- The backtick character (code 96). -/
def backtick : Char := Char.ofNat 96

/-- The three characters of a markdown fence. -/
def fenceChars : List Char := "```".data

/-- `\s` of Python regexes (ASCII range). -/
def isPyWs (c : Char) : Bool :=
  c = ' ' || c = '\t' || c = '\n' || c = '\r' || c = '\x0b' || c = '\x0c'

/-- Does `\s*` followed by a closing fence match here?  Backtracking over a
greedy `\s*` reduces to: drop the whitespace run, then require the fence. -/
def closeOk (rest : List Char) : Bool :=
  fenceChars.isPrefixOf (rest.dropWhile isPyWs)

/-- Shortest extension of the non-greedy `.*?` up to a `\}` that is followed
by `\s*` and the closing fence; returns the group remainder including that
closing brace. -/
def findClose : List Char → Option (List Char)
  | [] => none
  | c :: rest =>
    if c = '}' && closeOk rest then some ['}']
    else
      match findClose rest with
      | some g => some (c :: g)
      | none => none

/-- Match of the whole fence pattern anchored at the current position; returns
the capture group.  The optional `json` tag is committed greedily: when it is
present but the rest fails, the non-consuming alternative starts `\s*\{` at
the letter `j` and fails as well, so committing is faithful. -/
def matchFenceAt (cs : List Char) : Option (List Char) :=
  if fenceChars.isPrefixOf cs then
    let r1 := cs.drop 3
    let r2 := if "json".data.isPrefixOf r1 then r1.drop 4 else r1
    match r2.dropWhile isPyWs with
    | '{' :: rest =>
      match findClose rest with
      | some g => some ('{' :: g)
      | none => none
    | _ => none
  else none

/-- `re.search` for the fence pattern: leftmost matching start position. -/
def fenceSearch : List Char → Option (List Char)
  | [] => none
  | c :: rest =>
    match matchFenceAt (c :: rest) with
    | some g => some g
    | none => fenceSearch rest

/-! ## `extract_json_from_markdown` (api_server.py) -/

/-- Input of `extract_json_from_markdown`: the session values it is applied to
are either already-parsed dicts or raw strings. -/
inductive ExtractIn where
  | dict (fields : List (String × JValue)) : ExtractIn
  | text (s : String) : ExtractIn

/-- `extract_json_from_markdown`: falsy input gives `None` (note that this
catches the empty dict before the `isinstance(text, dict)` branch), a dict is
returned unchanged, otherwise the fence capture is parsed and, failing that,
the raw text. -/
def extract_json_from_markdown : ExtractIn → Option JValue
  | .dict l => if l.isEmpty then none else some (.obj l)
  | .text s =>
    if s.data.isEmpty then none
    else
      match fenceSearch s.data with
      | some g =>
        match jsonLoadsL g with
        | some v => some v
        | none => jsonLoads s
      | none => jsonLoads s

/-- The fenced-text wrapping of a serialized artifact (a ```` ```json ````
block, as produced by the generation capability). -/
def fencedWrap (s : String) : String :=
  "```json\n" ++ s ++ "\n```"

/-! ## PatchPlan (schemas/patch_plan.py)

The pydantic model `PatchPlan`.  Pydantic validation checks the three
`Literal` fields against their admissible string sets; `should_retry` is an
unconstrained `bool` and the free-text fields are unconstrained strings. -/

structure PatchPlan where
  root_cause_type : String
  analysis : String
  target_agent : String
  patch_instructions : String
  should_retry : Bool
  confidence : String

/-- Pydantic validation of a `PatchPlan`: exactly the `Literal` constraints of
`schemas/patch_plan.py`.  This is the only code-level constraint on what the
RCA classification step can output. -/
def validPatchPlan (p : PatchPlan) : Bool :=
  (p.root_cause_type == "DESIGN" || p.root_cause_type == "INSTRUCTION" ||
    p.root_cause_type == "OBJECTIVES") &&
  (p.target_agent == "designer" || p.target_agent == "author" || p.target_agent == "planner") &&
  (p.confidence == "high" || p.confidence == "medium" || p.confidence == "low")

/-! ## The agent tree (adk_agents/pipeline.py)

`AgentT` models the ADK agent tree that `create_lab_pipeline` builds:
`LlmAgent`s (name and `output_key`), the custom `ValidatorAgent`, the
`SessionStateWriterAgent`s (name, `output_key`, `detect_by_fields`),
`SequentialAgent` and `LoopAgent` (with its `max_iterations`). -/

inductive AgentT where
  | llm (name : String) (outputKey : Option String)
  | validatorAgent (name : String)
  | writerAgent (name : String) (outputKey : String) (detectByFields : List String)
  | seqAgent (name : String) (subAgents : List AgentT)
  | loopAgent (name : String) (subAgents : List AgentT) (maxIterations : Nat)

/-- `adk_agents/planner.py`: the interactive Q&A planner. -/
def planner_agent : AgentT := .llm "PedagogyPlanner" (some "exercise_spec")

/-- `adk_agents/designer.py` `create_designer_agent`. -/
def designer_agent : AgentT := .llm "NetworkDesigner" (some "design_output")

/-- `adk_agents/author.py` `create_author_agent`. -/
def author_agent : AgentT := .llm "LabGuideAuthor" (some "draft_lab_guide")

/-- `adk_agents/rca.py` `create_rca_agent`. -/
def rca_agent : AgentT := .llm "RCAAgent" (some "patch_plan")

/-- `adk_agents/rca.py` `create_patch_router_agent`.  The router is a plain
`LlmAgent` with no tools: its instruction text mentions that Designer/Author
are "available as a tool (if needed)" but none is attached. -/
def patch_router_agent : AgentT := .llm "PatchRouterAgent" (some "patch_result")

/-- `adk_agents/validator.py` singleton `validator_agent`. -/
def validator_agent : AgentT := .validatorAgent "ValidatorAgent"

/-- `adk_agents/session_state_writer.py` singleton `design_state_writer`. -/
def design_state_writer : AgentT :=
  .writerAgent "SessionStateWriter_design_output" "design_output"
    ["topology_yaml", "platforms", "initial_configs"]

/-- `adk_agents/session_state_writer.py` singleton `draft_state_writer`. -/
def draft_state_writer : AgentT :=
  .writerAgent "SessionStateWriter_draft_lab_guide" "draft_lab_guide"
    ["title", "device_sections", "objectives"]

/-- The fresh writer instance built inside `create_lab_pipeline` for the retry
loop (same configuration as `design_state_writer`, separate instance because
ADK agents may only have one parent). -/
def retry_design_writer : AgentT :=
  .writerAgent "SessionStateWriter_design_output" "design_output"
    ["topology_yaml", "platforms", "initial_configs"]

/-- The fresh writer instance built inside `create_lab_pipeline` for the retry
loop (same configuration as `draft_state_writer`). -/
def retry_draft_writer : AgentT :=
  .writerAgent "SessionStateWriter_draft_lab_guide" "draft_lab_guide"
    ["title", "device_sections", "objectives"]

/-- The `ValidationRetryLoop` `LoopAgent` built inside `create_lab_pipeline`
when both validation and RCA are enabled: its `sub_agents` are the validator,
the RCA agent, the patch router and the two retry state writers, and
`max_iterations = 3`. -/
def retry_loop : AgentT :=
  .loopAgent "ValidationRetryLoop"
    [validator_agent, rca_agent, patch_router_agent, retry_design_writer, retry_draft_writer]
    3

/-- `create_lab_pipeline(include_validation, include_rca)` of
`adk_agents/pipeline.py`.  The `mock_mode` parameter of the source only picks
the validator instance (mock or real); both are the same `ValidatorAgent`
custom agent and the tree shape is unaffected, so it is not modelled. -/
def create_lab_pipeline (includeValidation includeRca : Bool) : AgentT :=
  if includeValidation && includeRca then
    .seqAgent "LabCreationPipelineWithRCA"
      [planner_agent, designer_agent, design_state_writer, author_agent, draft_state_writer,
        retry_loop]
  else if includeValidation then
    .seqAgent "LabCreationPipeline"
      [planner_agent, designer_agent, design_state_writer, author_agent, draft_state_writer,
        validator_agent]
  else
    .seqAgent "LabCreationPipelineNoValidation"
      [planner_agent, designer_agent, design_state_writer, author_agent, draft_state_writer]

/-- Name of an agent. -/
def agentName : AgentT → String
  | .llm n _ => n
  | .validatorAgent n => n
  | .writerAgent n _ _ => n
  | .seqAgent n _ => n
  | .loopAgent n _ _ => n

/-- Names of the direct sub-agents of a composite agent. -/
def subAgentNames : AgentT → List String
  | .seqAgent _ sub => sub.map agentName
  | .loopAgent _ sub _ => sub.map agentName
  | a => [agentName a]

/-- Modelled from the spec: the iteration count of the Retry Loop Controller.
The `LoopAgent` run semantics live in the external `google.adk` library, not
in this repository; the spec states that the loop "re-enters Validating up to
`max_iterations` times" and stops early when the router escalates.  `esc i`
says whether the router escalated in cycle `i`; the result is the number of
regenerate/validate cycles started. -/
def cyclesFrom (esc : Nat → Bool) : Nat → Nat → Nat
  | _, 0 => 0
  | i, n + 1 => 1 + (if esc i then 0 else cyclesFrom esc (i + 1) n)

/-- Modelled from the spec: cycles started when running an agent tree once —
non-loop leaves start none, a `LoopAgent` starts up to its `max_iterations`,
a `SequentialAgent` runs its children in order. -/
def agentCycles (esc : Nat → Bool) (a : AgentT) : Nat :=
  match a with
  | .llm _ _ => 0
  | .validatorAgent _ => 0
  | .writerAgent _ _ _ => 0
  | .loopAgent _ _ n => cyclesFrom esc 0 n
  | .seqAgent _ sub => (sub.attach.map (fun x => agentCycles esc x.1)).foldr (· + ·) 0
termination_by sizeOf a
decreasing_by
  simp_wf
  have := List.sizeOf_lt_of_mem x.2
  omega

/-! ## Session-state writer (adk_agents/session_state_writer.py) -/

/-- ADK session state: a dict from state keys to committed artifact values. -/
def WState := List (String × JValue)

/-- `context.session.state.get(key)`. -/
def lookupSt (st : WState) (k : String) : Option JValue :=
  (List.find? (fun kv => kv.1 == k) st).map (fun kv => kv.2)

/-- `context.session.state[key] = v` (replace or append). -/
def setSt : WState → String → JValue → WState
  | [], k, v => [(k, v)]
  | (k2, v2) :: rest, k, v =>
    if k2 == k then (k2, v) :: rest else (k2, v2) :: setSt rest k v

/-- The input the writer receives from the previous agent: no `context.input`
at all, input without usable text parts, or the extracted text. -/
inductive WInput where
  | absent : WInput
  | text (s : String) : WInput

/-- Log severity of the structured logger calls in the writer. -/
inductive LogLevel where
  | info : LogLevel
  | warn : LogLevel
  | err : LogLevel
deriving DecidableEq, Repr

/-- One structured log call: severity and event tag. -/
def LogEntry := LogLevel × String

/-- Python `field in parsed` for a parsed JSON value: key membership for a
dict, element equality for a list, substring test for a string, and a
`TypeError` for the non-container scalars. -/
def pyContains (parsed : JValue) (field : String) : Except String Bool :=
  match parsed with
  | .obj l => .ok (l.any (fun kv => kv.1 == field))
  | .arr l => .ok (l.any (fun v => match v with | .str s => s == field | _ => false))
  | .str s => .ok (decide (field.data <:+: s.data))
  | _ => .error "TypeError"

/-- `all(field in parsed for field in detect_by_fields)`: short-circuiting, a
`TypeError` surfaces only if raised before the first failing field. -/
def pyAllIn (detect : List String) (parsed : JValue) : Except String Bool :=
  match detect with
  | [] => .ok true
  | f :: rest =>
    match pyContains parsed f with
    | .error e => .error e
    | .ok b => if b then pyAllIn rest parsed else .ok false

/-- Field check and conditional commit of the writer (source lines 84-100):
the `all(...)` call and the state write sit inside the outer `try`, so a
`TypeError` there is caught and logged as `session_state_extraction_failed`. -/
def writerCommit (key : String) (detect : List String) (st : WState) (parsed : JValue) :
    WState × List LogEntry :=
  match pyAllIn detect parsed with
  | .error _ => (st, [(.err, "session_state_extraction_failed")])
  | .ok true => (setSt st key parsed, [(.info, "session_state_written")])
  | .ok false => (st, [(.warn, "json_missing_required_fields")])

/-- `SessionStateWriterAgent.run_async`: early return if the output key is
already truthy in the session state; otherwise extract JSON from the previous
agent output (direct parse, then fence capture) and commit it when it carries
the expected fields.  Every failure path logs and returns normally — all
exceptions of the extraction block are caught by the source's outer
`try/except`. -/
def writerRun (key : String) (detect : List String) (st : WState) (inp : WInput) :
    WState × List LogEntry :=
  if truthyOptJ (lookupSt st key) then (st, [(.info, "session_state_already_exists")])
  else
    match inp with
    | .absent => (st, [(.warn, "no_input_from_previous_agent")])
    | .text s =>
      if s.data.isEmpty then (st, [(.warn, "no_text_in_input")])
      else
        match jsonLoads s with
        | some parsed => writerCommit key detect st parsed
        | none =>
          match fenceSearch s.data with
          | some g =>
            match jsonLoadsL g with
            | some parsed => writerCommit key detect st parsed
            | none => (st, [(.err, "session_state_extraction_failed")])
          | none => (st, [(.warn, "no_json_found")])

/-! ## Validator (adk_agents/validator.py) and artifacts (tools/artifacts.py) -/

/-- A session-state value read by the validator: agents leave either raw
strings (possibly fenced JSON) or already-parsed dicts.  Other Python types do
not occur for these keys and are not modelled. -/
inductive SVal where
  | strv (s : String) : SVal
  | dictv (fields : List (String × JValue)) : SVal

/-- Python truthiness of such a value. -/
def truthySV : SVal → Bool
  | .strv s => !s.data.isEmpty
  | .dictv l => !l.isEmpty

/-- Python truthiness of an optional session value. -/
def truthyOptSV : Option SVal → Bool
  | none => false
  | some v => truthySV v

/-- Input fallback of `run_async` (source lines 65-88): a missing or falsy
session value is replaced by the JSON file from `./output` when that file
exists and loads. -/
def fallbackInput (sv : Option SVal) (file : Option (List (String × JValue))) : Option SVal :=
  if truthyOptSV sv then sv
  else
    match file with
    | some l => some (.dictv l)
    | none => sv

/-- The fence stripping of `run_async` (lines 110-150): strip the string, and
when it starts with a fence drop its first and last lines before parsing. -/
def stripValidatorFences (s : String) : String :=
  let t := s.trim
  if t.startsWith "```" then String.intercalate "\n" (((t.splitOn "\n").drop 1).dropLast)
  else t

/-- Resolution of a session value to a parsed artifact: dicts pass through;
non-blank strings are fence-stripped and `json.loads`-ed, a parse failure
being the `JSONDecodeError` branch of the source; a blank string skips the
parse branch and stays a string (the source would only fail later, outside the
code paths any claim touches). -/
def resolveInput : SVal → Except String JValue
  | .dictv l => .ok (.obj l)
  | .strv s =>
    if s.trim = "" then .ok (.str s)
    else
      match jsonLoads (stripValidatorFences s) with
      | some v => .ok v
      | none => .error "JSONDecodeError"

/-- Durable-storage path whose existence `_poll_job` checks. -/
def pollSentinelPath (execId : String) : String := execId ++ "/summary.json"

/-- Durable-storage path `fetch_validation_artifacts` requires. -/
def fetchResultsPath (execId : String) : String := execId ++ "/results.json"

/-- GCS bucket contents: existing object paths with their text contents. -/
def lookupStore (storage : List (String × String)) (path : String) : Option String :=
  (List.find? (fun kv => kv.1 == path) storage).map (fun kv => kv.2)

/-- The poll loop of `_poll_job`: `elapsed = 0; while elapsed < max_wait:
check sentinel; sleep 10; elapsed += 10`, returning `(completed?, number of
existence checks)`.  The fuel argument only feeds the structural recursion;
`pollJob` supplies `maxWait`, which exceeds the `maxWait / 10` possible
iterations. -/
def pollAux (present : Bool) (maxWait : Nat) : Nat → Nat → Bool × Nat
  | _, 0 => (false, 0)
  | elapsed, fuel + 1 =>
    if elapsed < maxWait then
      if present then (true, 1)
      else
        let r := pollAux present maxWait (elapsed + 10) fuel
        (r.1, r.2 + 1)
    else (false, 0)

/-- `_poll_job(execution_id, max_wait_seconds)`: polls the sentinel path on a
10 second interval; `False` (timed out) is returned as a value, never raised.
The storage is static here: the claims that use `pollJob` concern runs where
the sentinel is present from the start or never appears. -/
def pollJob (storage : List (String × String)) (execId : String) (maxWait : Nat) : Bool × Nat :=
  pollAux (lookupStore storage (pollSentinelPath execId)).isSome maxWait 0 maxWait

/-- `tools/artifacts.py` `ValidationArtifacts`.  The transcript grouping into
per-device outputs is not modelled (no claim touches it); `device_outputs`
stays as fetched file map. -/
structure ValidationArtifacts where
  execution_id : String
  summary : List (String × JValue)
  logs : Option String
  device_outputs : List (String × String)

/-- `summary.get(key)` (`None` for a missing key is represented as `none`). -/
def dictGet (d : List (String × JValue)) (k : String) : Option JValue :=
  (List.find? (fun kv => kv.1 == k) d).map (fun kv => kv.2)

/-- Python `x == "…"` for an optional summary value: only an equal string
compares equal; `None` and values of any other runtime type compare unequal. -/
def pyEqStr (v : Option JValue) (t : String) : Bool :=
  match v with
  | some (.str s) => s == t
  | _ => false

/-- Python `x is True`: only the `True` singleton. -/
def isIdentTrue : Option JValue → Bool
  | some (.bool true) => true
  | _ => false

/-- `ValidationArtifacts.success`: `summary.get("status") == "PASS" or
summary.get("ok") is True`. -/
def ValidationArtifacts.success (a : ValidationArtifacts) : Bool :=
  pyEqStr (dictGet a.summary "status") "PASS" || isIdentTrue (dictGet a.summary "ok")

/-- `summary.get("stats", {})`.  A present non-dict `stats` value would make
the source's `.get` raise; the claims only concern the absent case, modelled
as the `{}` default. -/
def ValidationArtifacts.stats (a : ValidationArtifacts) : List (String × JValue) :=
  match dictGet a.summary "stats" with
  | some (.obj l) => l
  | _ => []

/-- `ValidationArtifacts.total_steps`: `stats.get("total_steps", 0)`. -/
def ValidationArtifacts.total_steps (a : ValidationArtifacts) : JValue :=
  (dictGet a.stats "total_steps").getD (.num 0)

/-- `ValidationArtifacts.passed_steps`: `stats.get("passed", 0)`. -/
def ValidationArtifacts.passed_steps (a : ValidationArtifacts) : JValue :=
  (dictGet a.stats "passed").getD (.num 0)

/-- `ValidationArtifacts.failed_steps`: `stats.get("failed", 0)`. -/
def ValidationArtifacts.failed_steps (a : ValidationArtifacts) : JValue :=
  (dictGet a.stats "failed").getD (.num 0)

/-- `fetch_validation_artifacts`: requires `{execution_id}/results.json`
(`FileNotFoundError` when absent — raised to the caller); parses it as the
summary (a parse failure also propagates to the caller as an exception);
optionally reads the execution log.  A non-dict `results.json` is mapped to an
error here: in the source it would equally end in the caller's
`except` (see `runValidator`). -/
def fetch_validation_artifacts (execId bucket : String) (storage : List (String × String)) :
    Except String ValidationArtifacts :=
  match lookupStore storage (fetchResultsPath execId) with
  | none =>
    .error ("Results not found in GCS: gs://" ++ bucket ++ "/" ++ execId ++ "/results.json")
  | some txt =>
    match jsonLoads txt with
    | some (.obj l) =>
      .ok ⟨execId, l, lookupStore storage (execId ++ "/execution.log"), []⟩
    | some _ => .error "TypeError: results.json is not an object"
    | none => .error "JSONDecodeError"

/-- Environment of one `ValidatorAgent.run_async` call: the session values,
the `./output` file fallbacks, the current Unix time, the outcome `gcloud`
submission would have, the bucket name and the bucket contents. -/
structure VEnv where
  draftGuide : Option SVal
  designOutput : Option SVal
  fileDraft : Option (List (String × JValue))
  fileDesign : Option (List (String × JValue))
  now : Nat
  submitResult : Except String Unit
  bucketName : String
  storage : List (String × String)

/-- Observable external effects of one validator run. -/
inductive VEff where
  | submitted : VEff
  | polled (path : String) : VEff
  | fetched (execId : String) : VEff
deriving DecidableEq, Repr

/-- The `validation_result` recorded when inputs are missing. -/
def skippedResult : JValue :=
  .obj [("execution_id", .str "skipped"), ("success", .bool false),
    ("summary", .obj [("error",
      .str "Validation skipped - missing required inputs (not in session state or output files)")]),
    ("skipped", .bool true)]

/-- The `validation_result` recorded when a session value fails to parse. -/
def parseFailResult (which e : String) : JValue :=
  .obj [("execution_id", .str "skipped"), ("success", .bool false),
    ("summary", .obj [("error", .str ("Failed to parse " ++ which ++ " JSON: " ++ e))]),
    ("skipped", .bool true)]

/-- The `validation_result` recorded when job submission raises. -/
def submitFailResult (execId e : String) : JValue :=
  .obj [("execution_id", .str execId), ("success", .bool false),
    ("summary", .obj [("error", .str ("Job submission failed: " ++ e))]),
    ("error", .str e)]

/-- The `validation_result` recorded when artifact fetching raises. -/
def fetchFailResult (execId e : String) : JValue :=
  .obj [("execution_id", .str execId), ("success", .bool false),
    ("summary", .obj [("error", .str ("Artifact fetch failed: " ++ e))]),
    ("error", .str e)]

/-- The message of the `AttributeError` the source raises right after a
successful fetch: the `logger.info` call inside the fetch `try` invokes
`artifacts.get(...)` on the returned `ValidationArtifacts`, which has no
`get` method, so even a successful fetch is recorded through the
`Artifact fetch failed` branch (the code after the `try` that would record a
real result is unreachable). -/
def attrErrMsg : String := "ValidationArtifacts object has no attribute get"

/-- `ValidatorAgent.run_async`: input resolution with file fallback, the
missing-input and parse-failure early exits, job submission, polling and
artifact fetch, returning the `validation_result` written to the session
state together with the external effects performed.  The payload conversion
(`_convert_payload`) only shapes the submitted job and is not modelled beyond
the `exercise_id` (`val-{int(time.time())}`) it produces.  Every `except`
block of the source corresponds to an error branch here, so the function
returns normally on every input. -/
def runValidator (env : VEnv) : Option JValue × List VEff :=
  match fallbackInput env.draftGuide env.fileDraft,
      fallbackInput env.designOutput env.fileDesign with
  | some dv, some gv =>
    if truthySV dv && truthySV gv then
      match resolveInput dv with
      | .error e => (some (parseFailResult "draft_guide" e), [])
      | .ok _ =>
        match resolveInput gv with
        | .error e => (some (parseFailResult "design_output" e), [])
        | .ok _ =>
          let execId := "val-" ++ toString env.now
          match env.submitResult with
          | .error e => (some (submitFailResult execId e), [.submitted])
          | .ok _ =>
            let pr := pollJob env.storage execId 600
            let pollEffs := List.replicate pr.2 (VEff.polled (pollSentinelPath execId))
            match fetch_validation_artifacts execId env.bucketName env.storage with
            | .error e =>
              (some (fetchFailResult execId e),
                VEff.submitted :: pollEffs ++ [VEff.fetched execId])
            | .ok _ =>
              (some (fetchFailResult execId attrErrMsg),
                VEff.submitted :: pollEffs ++ [VEff.fetched execId])
    else (some skippedResult, [])
  | _, _ => (some skippedResult, [])

/-- Concrete environment: inputs present, submission succeeds, storage empty
(the completion sentinel never appears). -/
def envNoSentinel : VEnv :=
  ⟨some (.dictv [("a", .null)]), some (.dictv [("b", .null)]), none, none, 5, .ok (), "bkt", []⟩

/-- Concrete environment: inputs present, job submission raises. -/
def envSubmitRefused : VEnv :=
  ⟨some (.dictv [("a", .null)]), some (.dictv [("b", .null)]), none, none, 7, .error "boom",
    "bkt", []⟩

/-- A structured value whose serialization contains a brace-and-fence pattern
inside a string field: `json.dumps` yields `{"a": "} ```"}`. -/
def fenceTrapValue : JValue := .obj [("a", .str "\x7d ```")]

/-- A session state whose committed `design_output` is the empty dict — a
present but falsy value. -/
def falsyCommittedState : WState := [("design_output", .obj [])]

/-- A regenerated design artifact as the previous agent's raw text output. -/
def regenDesignInput : WInput :=
  .text "\x7b\"topology_yaml\": \"t\", \"platforms\": \x7b\x7d, \"initial_configs\": \x7b\x7d\x7d"

/-! # Theorems -/

-- sanity checks: the embedding evaluates as the source does on small inputs
example : jsonLoads "\x7b\"a\": 1\x7d" = some (.obj [("a", .num 1)]) := rfl

example : jsonLoads "[true, null, \"x\"]" = some (.arr [.bool true, .null, .str "x"]) := rfl

example : jsonLoads "\x7b\"a\": 1" = none := rfl

example : dumpsJ (.obj [("a", .num 1), ("b", .str "x")]) = "\x7b\"a\": 1, \"b\": \"x\"\x7d" := rfl

example :
    extract_json_from_markdown (.text (fencedWrap "\x7b\"a\": 2\x7d")) =
      some (.obj [("a", .num 2)]) := rfl

example : extract_json_from_markdown (.text "no json here") = none := rfl

/-! ## Helper lemmas -/

/-- The fence is three backticks. -/
theorem fenceChars_eq : fenceChars = backtick :: backtick :: backtick :: [] := rfl

/-- A list that does not start with a backtick does not start with a fence. -/
theorem isPrefixOf_fence_cons (c : Char) (t : List Char) (hc : c ≠ backtick) :
    fenceChars.isPrefixOf (c :: t) = false := by
  have hb : (backtick == c) = false := beq_eq_false_iff_ne.mpr (Ne.symm hc)
  rw [fenceChars_eq]
  simp [List.isPrefixOf, hb]

/-- No closing fence can follow a brace while backtick-free text intervenes. -/
theorem closeOk_append_no_backtick (y : List Char) (rest : List Char)
    (hy : ∀ c ∈ y, c ≠ backtick) :
    closeOk (y ++ '}' :: rest) = false := by
  unfold closeOk
  rw [List.dropWhile_append]
  split
  · rw [List.dropWhile_cons]
    simp only [show isPyWs '}' = false from rfl, Bool.false_eq_true, if_false]
    exact isPrefixOf_fence_cons '}' rest (by decide)
  · rename_i he
    rcases hd : y.dropWhile isPyWs with _ | ⟨d, t⟩
    · rw [hd] at he; simp at he
    · have hdm : d ∈ y := by
        have hsuf : y.dropWhile isPyWs <:+ y := List.dropWhile_suffix isPyWs
        exact hsuf.subset (by rw [hd]; exact List.mem_cons_self d t)
      rw [List.cons_append]
      exact isPrefixOf_fence_cons d _ (hy d hdm)

/-- On a backtick-free object body followed by the closing fence, the
non-greedy capture stops exactly at the body's final brace. -/
theorem findClose_append (b : List Char) (hb : ∀ c ∈ b, c ≠ backtick) :
    findClose (b ++ '}' :: '\n' :: fenceChars) = some (b ++ ['}']) := by
  induction b with
  | nil => rfl
  | cons c b ih =>
    have hb2 : ∀ x ∈ b, x ≠ backtick := fun x hx => hb x (List.mem_cons_of_mem c hx)
    show findClose (c :: (b ++ '}' :: '\n' :: fenceChars)) = some ((c :: b) ++ ['}'])
    unfold findClose
    by_cases hcc : c = '}'
    · rw [if_neg]
      · simp only [ih hb2, List.cons_append]
      · rw [closeOk_append_no_backtick b _ hb2]
        simp
    · rw [if_neg]
      · simp only [ih hb2, List.cons_append]
      · simp [hcc]

/-- The fence pattern cannot match at a non-backtick character. -/
theorem matchFenceAt_none (c : Char) (rest : List Char) (hc : c ≠ backtick) :
    matchFenceAt (c :: rest) = none := by
  unfold matchFenceAt
  rw [isPrefixOf_fence_cons c rest hc]
  simp

/-- Backtick-free text has no fence match at all. -/
theorem fenceSearch_none (cs : List Char) (h : ∀ c ∈ cs, c ≠ backtick) :
    fenceSearch cs = none := by
  induction cs with
  | nil => rfl
  | cons c rest ih =>
    unfold fenceSearch
    rw [matchFenceAt_none c rest (h c (List.mem_cons_self c rest))]
    exact ih (fun x hx => h x (List.mem_cons_of_mem c hx))

/-- A match anchored at the first position is the search result. -/
theorem fenceSearch_of_matchFenceAt (cs : List Char) (g : List Char)
    (h : matchFenceAt cs = some g) : fenceSearch cs = some g := by
  cases cs with
  | nil => exact absurd h (by rw [show matchFenceAt [] = none from rfl]; simp)
  | cons c rest =>
    unfold fenceSearch
    rw [h]

/-- On the fenced wrapping of a backtick-free object text, the regex captures
exactly that text. -/
theorem fenceSearch_fenced (b : List Char) (hb : ∀ c ∈ b, c ≠ backtick) :
    fenceSearch ("```json\n".data ++ ('{' :: (b ++ ['}'])) ++ '\n' :: fenceChars) =
      some ('{' :: (b ++ ['}'])) := by
  apply fenceSearch_of_matchFenceAt
  unfold matchFenceAt
  rw [show ("```json\n".data ++ ('{' :: (b ++ ['}'])) ++ '\n' :: fenceChars) =
        fenceChars ++
          ('j' :: 's' :: 'o' :: 'n' :: '\n' :: (('{' :: (b ++ ['}'])) ++ '\n' :: fenceChars))
      from by simp [fenceChars]]
  rw [show fenceChars.isPrefixOf
        (fenceChars ++
          ('j' :: 's' :: 'o' :: 'n' :: '\n' :: (('{' :: (b ++ ['}'])) ++ '\n' :: fenceChars))) =
          true
      from List.isPrefixOf_iff_prefix.mpr (List.prefix_append _ _)]
  simp only [if_true]
  rw [show (3 : Nat) = fenceChars.length from rfl, List.drop_left]
  rw [show ('j' :: 's' :: 'o' :: 'n' :: '\n' :: (('{' :: (b ++ ['}'])) ++ '\n' :: fenceChars)) =
        "json".data ++ ('\n' :: (('{' :: (b ++ ['}'])) ++ '\n' :: fenceChars)) from by simp]
  rw [show ("json".data.isPrefixOf
        ("json".data ++ ('\n' :: (('{' :: (b ++ ['}'])) ++ '\n' :: fenceChars)))) = true
      from List.isPrefixOf_iff_prefix.mpr (List.prefix_append _ _)]
  simp only [if_true]
  rw [show (4 : Nat) = "json".data.length from rfl, List.drop_left]
  rw [List.dropWhile_cons]
  simp only [show isPyWs '\n' = true from rfl, if_true]
  rw [show (('{' :: (b ++ ['}'])) ++ '\n' :: fenceChars) =
        '{' :: (b ++ '}' :: '\n' :: fenceChars) from by simp]
  rw [List.dropWhile_cons]
  simp only [show isPyWs '{' = false from rfl, Bool.false_eq_true, if_false]
  rw [findClose_append b hb]

/-- The 60-iteration poll loop on an absent sentinel. -/
theorem pollAux_never : pollAux false 600 0 600 = (false, 60) := rfl

/-- A committed value is visible under its key. -/
theorem lookupSt_setSt (st : WState) (k : String) (v : JValue) :
    lookupSt (setSt st k v) k = some v := by
  induction st with
  | nil => simp [setSt, lookupSt]
  | cons kv rest ih =>
    rcases kv with ⟨k2, v2⟩
    by_cases h : k2 = k
    · simp [setSt, lookupSt, h]
    · have hb : (k2 == k) = false := beq_eq_false_iff_ne.mpr h
      simp only [setSt, hb, Bool.false_eq_true, if_false]
      simpa [lookupSt, hb] using ih

/-- `x == "…"` holds exactly for the equal string value. -/
theorem pyEqStr_eq_true_iff (v : Option JValue) (t : String) :
    pyEqStr v t = true ↔ v = some (.str t) := by
  rcases v with _ | w
  · simp [pyEqStr]
  · cases w <;> simp [pyEqStr]

/-- `x is True` holds exactly for the boolean `True`. -/
theorem isIdentTrue_eq_true_iff (v : Option JValue) :
    isIdentTrue v = true ↔ v = some (.bool true) := by
  rcases v with _ | w
  · simp [isIdentTrue]
  · cases w with
    | bool b => cases b <;> simp [isIdentTrue]
    | _ => simp [isIdentTrue]

/-- The modelled loop controller never starts more cycles than its budget. -/
theorem cyclesFrom_le (esc : Nat → Bool) (n : Nat) : ∀ i, cyclesFrom esc i n ≤ n := by
  induction n with
  | zero => intro i; simp [cyclesFrom]
  | succ n ih =>
    intro i
    simp only [cyclesFrom]
    split
    · omega
    · have := ih (i + 1); omega

/-! ## Claims -/

/-- C1: for every pipeline execution created with the RCA retry loop enabled
(`create_lab_pipeline(include_validation=True, include_rca=True)`), the retry
loop controller executes at most `max_iterations = 3` regenerate/validate
cycles — whatever the escalation outcomes, a fourth cycle is never started —
and the `ValidationRetryLoop` is configured with `max_iterations = 3`.
The loop-run semantics (`google.adk.LoopAgent`) are modelled from the spec in
`cyclesFrom`; the configuration is from the source. -/
theorem retry_loop_bounded_cycles :
    (∀ esc : Nat → Bool, agentCycles esc (create_lab_pipeline true true) ≤ 3) ∧
    retry_loop = .loopAgent "ValidationRetryLoop"
      [validator_agent, rca_agent, patch_router_agent, retry_design_writer, retry_draft_writer]
      3 := by
  refine ⟨fun esc => ?_, rfl⟩
  simp [agentCycles, create_lab_pipeline, planner_agent, designer_agent, design_state_writer,
    author_agent, draft_state_writer, retry_loop, validator_agent, rca_agent, patch_router_agent,
    retry_design_writer, retry_draft_writer, List.attach, List.attachWith]
  exact cyclesFrom_le esc 3 0

/-- C2: contrary to the claim, the targeted upstream stage never re-runs
inside the retry loop: the `ValidationRetryLoop` of
`create_lab_pipeline(include_validation=True, include_rca=True)` contains
neither the Designer nor the Author agent among its sub-agents (and the patch
router has no tools), so after routing a failure, the next iteration
re-validates unchanged artifacts.  This contradicts the source's own comment
`Validator → RCA → (Designer|Author) → Validator`. -/
theorem retry_loop_has_no_generation_stage :
    subAgentNames retry_loop =
      ["ValidatorAgent", "RCAAgent", "PatchRouterAgent",
        "SessionStateWriter_design_output", "SessionStateWriter_draft_lab_guide"] ∧
    agentName designer_agent ∉ subAgentNames retry_loop ∧
    agentName author_agent ∉ subAgentNames retry_loop ∧
    create_lab_pipeline true true = .seqAgent "LabCreationPipelineWithRCA"
      [planner_agent, designer_agent, design_state_writer, author_agent, draft_state_writer,
        retry_loop] :=
  ⟨rfl, by decide, by decide, rfl⟩

/-- C3 counterexample: the claimed invariant — every schema-valid
classification output with `root_cause_type = OBJECTIVES` has
`should_retry = false` and `target_agent = "planner"` — is false: the
`PatchPlan` schema admits an OBJECTIVES plan with `should_retry = true` and
`target_agent = "author"`, and no code enforces the invariant (it is only
requested in the RCA prompt text). -/
theorem patchplan_objectives_not_enforced_cx :
    ¬ (∀ p : PatchPlan, validPatchPlan p = true → p.root_cause_type = "OBJECTIVES" →
        p.should_retry = false ∧ p.target_agent = "planner") := by
  intro h
  have := h ⟨"OBJECTIVES", "analysis", "author", "fix", true, "high"⟩ (by decide) rfl
  exact absurd this.1 (by decide)

/-- C3 (amended): classification output is constrained only by the `PatchPlan`
schema, which checks `root_cause_type`, `target_agent` and `confidence`
against their literal sets; it does not constrain `should_retry` for
OBJECTIVES plans — a valid OBJECTIVES plan exists for either `should_retry`
value and any admissible target.  The OBJECTIVES ⇒ escalate policy lives only
in the prompt text of the RCA and router agents. -/
theorem patchplan_schema_constraints :
    (∀ p : PatchPlan, validPatchPlan p = true →
      (p.root_cause_type = "DESIGN" ∨ p.root_cause_type = "INSTRUCTION" ∨
        p.root_cause_type = "OBJECTIVES") ∧
      (p.target_agent = "designer" ∨ p.target_agent = "author" ∨ p.target_agent = "planner") ∧
      (p.confidence = "high" ∨ p.confidence = "medium" ∨ p.confidence = "low")) ∧
    (∀ (b : Bool) (tgt : String), (tgt = "designer" ∨ tgt = "author" ∨ tgt = "planner") →
      validPatchPlan ⟨"OBJECTIVES", "analysis", tgt, "fix", b, "high"⟩ = true) := by
  constructor
  · intro p hp
    simp only [validPatchPlan, Bool.and_eq_true, Bool.or_eq_true, beq_iff_eq] at hp
    exact ⟨or_assoc.mp hp.1.1, or_assoc.mp hp.1.2, or_assoc.mp hp.2⟩
  · intro b tgt htgt
    rcases htgt with h | h | h <;> subst h <;> rfl

/-- C3 witness. -/
theorem patchplan_schema_constraints_witness :
    validPatchPlan ⟨"OBJECTIVES", "analysis", "author", "fix", true, "high"⟩ = true ∧
    ("OBJECTIVES" = "DESIGN" ∨ "OBJECTIVES" = "INSTRUCTION" ∨ "OBJECTIVES" = "OBJECTIVES") :=
  ⟨patchplan_schema_constraints.2 true "author" (Or.inr (Or.inl rfl)),
   (patchplan_schema_constraints.1 ⟨"OBJECTIVES", "analysis", "author", "fix", true, "high"⟩
      (by decide)).1⟩

/-- C4: contrary to the claim, polling and fetching do not agree on one
sentinel: `_poll_job` checks `{execution_id}/summary.json` while
`fetch_validation_artifacts` requires `{execution_id}/results.json`.  On a
store holding only the poll sentinel, poll reports completion at the first
check but the fetch fails with `FileNotFoundError`; on a store holding only
the result object the runner actually writes (per the source's own comment,
`results.json`), the job is fetchable yet poll times out after 60 checks. -/
theorem poll_fetch_sentinel_disagree :
    pollSentinelPath "val-1" ≠ fetchResultsPath "val-1" ∧
    pollJob [("val-1/summary.json", "\x7b\x7d")] "val-1" 600 = (true, 1) ∧
    fetch_validation_artifacts "val-1" "netgenius-artifacts-dev"
        [("val-1/summary.json", "\x7b\x7d")] =
      .error "Results not found in GCS: gs://netgenius-artifacts-dev/val-1/results.json" ∧
    pollJob [("val-1/results.json", "\x7b\x7d")] "val-1" 600 = (false, 60) ∧
    fetch_validation_artifacts "val-1" "netgenius-artifacts-dev"
        [("val-1/results.json", "\x7b\x7d")] =
      .ok ⟨"val-1", [], none, []⟩ :=
  ⟨by decide, rfl, rfl, rfl, rfl⟩

/-- C5: with interval 10 s and `maxWait` 600 s, a poll whose sentinel never
appears returns the timed-out value `false` (no exception) after exactly 60
existence checks, which is `⌈600 / 10⌉`; and the caller records the attempt
as a failed `validation_result` (the fetch then finds no result object and its
`FileNotFoundError` is caught and recorded), returning normally with the
submit, 60 polls and one fetch as the only external effects — a validation
failure, not a fatal pipeline error. -/
theorem poll_timeout_behavior :
    (∀ (storage : List (String × String)) (execId : String),
      lookupStore storage (pollSentinelPath execId) = none →
      pollJob storage execId 600 = (false, 60)) ∧
    (600 + 10 - 1) / 10 = 60 ∧
    (∀ (env : VEnv) (d1 g1 : String × JValue) (dr gr : List (String × JValue)),
      env.draftGuide = some (.dictv (d1 :: dr)) →
      env.designOutput = some (.dictv (g1 :: gr)) →
      env.submitResult = .ok () →
      env.storage = [] →
      runValidator env =
        (some (fetchFailResult ("val-" ++ toString env.now)
            ("Results not found in GCS: gs://" ++ env.bucketName ++ "/" ++
              ("val-" ++ toString env.now) ++ "/results.json")),
          VEff.submitted ::
            List.replicate 60 (VEff.polled (pollSentinelPath ("val-" ++ toString env.now))) ++
            [VEff.fetched ("val-" ++ toString env.now)])) := by
  refine ⟨fun storage execId habs => ?_, rfl, fun env d1 g1 dr gr hd hg hsub hst => ?_⟩
  · unfold pollJob
    rw [habs]
    exact pollAux_never
  · unfold runValidator
    rw [hd, hg, hst]
    simp [fallbackInput, truthyOptSV, truthySV, resolveInput, hsub,
      fetch_validation_artifacts, lookupStore, fetchResultsPath,
      pollJob, pollSentinelPath, pollAux_never]

/-- C5 witness. -/
theorem poll_timeout_behavior_witness :
    pollJob [] "job-1" 600 = (false, 60) ∧
    runValidator envNoSentinel =
      (some (fetchFailResult ("val-" ++ toString (5 : Nat))
          ("Results not found in GCS: gs://" ++ "bkt" ++ "/" ++
            ("val-" ++ toString (5 : Nat)) ++ "/results.json")),
        VEff.submitted ::
          List.replicate 60 (VEff.polled (pollSentinelPath ("val-" ++ toString (5 : Nat)))) ++
          [VEff.fetched ("val-" ++ toString (5 : Nat))]) :=
  ⟨poll_timeout_behavior.1 [] "job-1" rfl,
   poll_timeout_behavior.2.2 envNoSentinel ("a", .null) ("b", .null) [] [] rfl rfl rfl rfl⟩

/-- C6: when job submission fails, the attempt is recorded as a
`validation_result` with `success = false` and a summary error naming the
submission failure (`Job submission failed: …`); no poll and no artifact
fetch is attempted (the only external effect is the submission itself), and
the run returns normally with the synthetic failed result in place for the
RCA step. -/
theorem submission_failure_recorded (env : VEnv) (d1 g1 : String × JValue)
    (dr gr : List (String × JValue)) (msg : String)
    (hd : env.draftGuide = some (.dictv (d1 :: dr)))
    (hg : env.designOutput = some (.dictv (g1 :: gr)))
    (hsub : env.submitResult = .error msg) :
    runValidator env =
      (some (.obj [("execution_id", .str ("val-" ++ toString env.now)),
          ("success", .bool false),
          ("summary", .obj [("error", .str ("Job submission failed: " ++ msg))]),
          ("error", .str msg)]),
        [VEff.submitted]) := by
  unfold runValidator
  rw [hd, hg]
  simp [fallbackInput, truthyOptSV, truthySV, resolveInput, hsub, submitFailResult]

/-- C6 witness. -/
theorem submission_failure_recorded_witness :
    runValidator envSubmitRefused =
      (some (.obj [("execution_id", .str ("val-" ++ toString (7 : Nat))),
          ("success", .bool false),
          ("summary", .obj [("error", .str ("Job submission failed: " ++ "boom"))]),
          ("error", .str "boom")]),
        [VEff.submitted]) :=
  submission_failure_recorded envSubmitRefused ("a", .null) ("b", .null) [] [] "boom" rfl rfl rfl

/-- C7: for every commit-barrier run in which the guarded key is still absent
after the barrier's checks and its re-extraction attempt, the barrier leaves
the session state unchanged and logs a warning or error, and it returns
normally — the translation is total because every exception of the source's
extraction block is caught — so the pipeline proceeds (degraded) and is never
halted by the barrier. -/
theorem commit_barrier_never_halts (key : String) (detect : List String) (st : WState)
    (inp : WInput)
    (habs : lookupSt (writerRun key detect st inp).1 key = none) :
    (writerRun key detect st inp).1 = st ∧
    ∃ e ∈ (writerRun key detect st inp).2, e.1 = LogLevel.warn ∨ e.1 = LogLevel.err := by
  have commitCase : ∀ parsed : JValue,
      lookupSt (writerCommit key detect st parsed).1 key = none →
      (writerCommit key detect st parsed).1 = st ∧
      ∃ e ∈ (writerCommit key detect st parsed).2,
        e.1 = LogLevel.warn ∨ e.1 = LogLevel.err := by
    intro parsed hab2
    have hC : writerCommit key detect st parsed = writerCommit key detect st parsed := rfl
    nth_rewrite 2 [writerCommit.eq_def] at hC
    rcases hall : pyAllIn detect parsed with e | b
    · rw [hall] at hC
      rw [hC] at hab2 ⊢
      exact ⟨rfl, ⟨(LogLevel.err, "session_state_extraction_failed"), by simp, Or.inr rfl⟩⟩
    · rw [hall] at hC
      cases b with
      | true =>
        rw [hC] at hab2
        simp [lookupSt_setSt] at hab2
      | false =>
        rw [hC] at hab2 ⊢
        exact ⟨rfl, ⟨(LogLevel.warn, "json_missing_required_fields"), by simp, Or.inl rfl⟩⟩
  have hW : writerRun key detect st inp = writerRun key detect st inp := rfl
  nth_rewrite 2 [writerRun.eq_def] at hW
  by_cases h0 : truthyOptJ (lookupSt st key) = true
  · rw [if_pos h0] at hW
    rw [hW] at habs
    simp only at habs
    rw [habs] at h0
    simp [truthyOptJ] at h0
  · rw [if_neg h0] at hW
    cases inp with
    | absent =>
      rw [hW] at habs ⊢
      exact ⟨rfl, ⟨(LogLevel.warn, "no_input_from_previous_agent"), by simp, Or.inl rfl⟩⟩
    | text s =>
      simp only at hW
      split at hW
      · rw [hW] at habs ⊢
        exact ⟨rfl, ⟨(LogLevel.warn, "no_text_in_input"), by simp, Or.inl rfl⟩⟩
      · split at hW
        · rw [hW] at habs ⊢
          exact commitCase _ habs
        · split at hW
          · split at hW
            · rw [hW] at habs ⊢
              exact commitCase _ habs
            · rw [hW] at habs ⊢
              exact ⟨rfl, ⟨(LogLevel.err, "session_state_extraction_failed"), by simp,
                Or.inr rfl⟩⟩
          · rw [hW] at habs ⊢
            exact ⟨rfl, ⟨(LogLevel.warn, "no_json_found"), by simp, Or.inl rfl⟩⟩

/-- C7 witness. -/
theorem commit_barrier_never_halts_witness :
    lookupSt (writerRun "design_output" ["topology_yaml"] [] WInput.absent).1 "design_output" =
        none ∧
    (writerRun "design_output" ["topology_yaml"] [] WInput.absent).1 = [] ∧
    ∃ e ∈ (writerRun "design_output" ["topology_yaml"] [] WInput.absent).2,
      e.1 = LogLevel.warn ∨ e.1 = LogLevel.err := by
  refine ⟨rfl, ?_⟩
  exact commit_barrier_never_halts "design_output" ["topology_yaml"] [] WInput.absent rfl

/-- C8 counterexample: extraction is not idempotent as claimed.  The
already-structured empty dict is mapped to `None` by the falsy-input check
(`if not text`), not returned unchanged; and for the structured value
`{"a": "} ```"}`, whose serialization carries a brace-and-fence pattern inside
a string, extracting the raw serialization returns the value but extracting
its fenced-text wrapping returns `None` — the non-greedy capture stops at the
brace inside the string literal and the mangled group no longer parses. -/
theorem extraction_idempotence_cx :
    (¬ ∀ l : List (String × JValue),
        extract_json_from_markdown (.dict l) = some (.obj l)) ∧
    (¬ ∀ v : JValue,
        extract_json_from_markdown (.text (fencedWrap (dumpsJ v))) =
          extract_json_from_markdown (.text (dumpsJ v))) := by
  constructor
  · intro h
    have h0 := h []
    rw [show extract_json_from_markdown (.dict []) = none from rfl] at h0
    exact Option.noConfusion h0
  · intro h
    have h0 := h fenceTrapValue
    rw [show extract_json_from_markdown (.text (fencedWrap (dumpsJ fenceTrapValue))) = none
        from rfl,
      show extract_json_from_markdown (.text (dumpsJ fenceTrapValue)) = some fenceTrapValue
        from rfl] at h0
    exact Option.noConfusion h0

/-- C8 (amended): extraction returns every non-empty already-structured
(dict) value unchanged — the source maps every falsy input, the empty dict
included, to `None` — and for every structured value whose serialization is a
brace-delimited object text free of backtick characters, extracting the
fenced-text-wrapped serialization and extracting the raw serialization both
yield the original value.  (A serialization containing backticks can defeat
the non-greedy fence capture, and the empty dict is swallowed by the
falsy-input check.) -/
theorem extraction_idempotence_amended :
    (∀ l : List (String × JValue), l ≠ [] →
      extract_json_from_markdown (.dict l) = some (.obj l)) ∧
    (∀ (b : List Char) (v : JValue), (∀ c ∈ b, c ≠ backtick) →
      jsonLoadsL ('{' :: (b ++ ['}'])) = some v →
      extract_json_from_markdown (.text (String.mk ('{' :: (b ++ ['}'])))) = some v ∧
      extract_json_from_markdown (.text (fencedWrap (String.mk ('{' :: (b ++ ['}']))))) =
        some v) := by
  constructor
  · intro l hl
    cases l with
    | nil => exact absurd rfl hl
    | cons x xs => rfl
  · intro b v hb hparse
    have hs : ∀ c ∈ ('{' :: (b ++ ['}'])), c ≠ backtick := by
      intro c hc
      rcases List.mem_cons.mp hc with h | h
      · subst h; decide
      · rcases List.mem_append.mp h with h2 | h2
        · exact hb c h2
        · rw [List.mem_singleton.mp h2]; decide
    constructor
    · show extract_json_from_markdown (.text (String.mk ('{' :: (b ++ ['}'])))) = some v
      simp only [extract_json_from_markdown]
      rw [show ('{' :: (b ++ ['}'])).isEmpty = false from rfl]
      simp only [Bool.false_eq_true, if_false]
      rw [fenceSearch_none _ hs]
      exact hparse
    · simp only [extract_json_from_markdown]
      have hdata : (fencedWrap (String.mk ('{' :: (b ++ ['}'])))).data =
          "```json\n".data ++ ('{' :: (b ++ ['}'])) ++ '\n' :: fenceChars := by
        simp [fencedWrap, String.data_append, fenceChars]
      rw [hdata]
      have hne :
          ("```json\n".data ++ ('{' :: (b ++ ['}'])) ++ '\n' :: fenceChars).isEmpty = false := by
        rw [show "```json\n".data ++ ('{' :: (b ++ ['}'])) ++ '\n' :: fenceChars =
              backtick :: ("``json\n".data ++ ('{' :: (b ++ ['}'])) ++ '\n' :: fenceChars)
            from rfl]
        rfl
      rw [hne]
      simp only [Bool.false_eq_true, if_false]
      rw [fenceSearch_fenced b hb]
      show (match jsonLoadsL ('{' :: (b ++ ['}'])) with
        | some w => some w
        | none => jsonLoads (fencedWrap (String.mk ('{' :: (b ++ ['}']))))) = some v
      rw [hparse]

/-- C8 witness. -/
theorem extraction_idempotence_amended_witness :
    extract_json_from_markdown (.dict [("k", .num 1)]) = some (.obj [("k", .num 1)]) ∧
    extract_json_from_markdown (.text (String.mk ('{' :: ("\"k\": 1".data ++ ['}'])))) =
      some (.obj [("k", .num 1)]) ∧
    extract_json_from_markdown (.text (fencedWrap (String.mk ('{' :: ("\"k\": 1".data ++ ['}']))))) =
      some (.obj [("k", .num 1)]) :=
  ⟨extraction_idempotence_amended.1 [("k", .num 1)] (by simp),
   (extraction_idempotence_amended.2 "\"k\": 1".data (.obj [("k", .num 1)]) (by decide) rfl).1,
   (extraction_idempotence_amended.2 "\"k\": 1".data (.obj [("k", .num 1)]) (by decide) rfl).2⟩

/-- C9 counterexample: the claim quantifies over every state whose output key
"already holds a value", but the source's early-return check uses Python
truthiness, not presence: when the committed `design_output` is the falsy
empty dict, the writer does not return early — it re-extracts from its input
and overwrites the committed value, changing the session state. -/
theorem barrier_overwrites_falsy_value_cx :
    ¬ (∀ (key : String) (detect : List String) (st : WState) (inp : WInput),
        (lookupSt st key).isSome = true → (writerRun key detect st inp).1 = st) := by
  intro h
  have hres := h "design_output" ["topology_yaml", "platforms", "initial_configs"]
    falsyCommittedState regenDesignInput rfl
  have hval : (writerRun "design_output" ["topology_yaml", "platforms", "initial_configs"]
      falsyCommittedState regenDesignInput).1 =
      [("design_output", .obj [("topology_yaml", .str "t"), ("platforms", .obj []),
        ("initial_configs", .obj [])])] := rfl
  rw [hres] at hval
  have hlen := congrArg
    (fun l : WState => match l with | (_, JValue.obj f) :: _ => f.length | _ => 0) hval
  exact absurd hlen (by decide)

/-- C9 (amended): for every run of a commit-barrier writer whose output key
already holds a truthy (non-empty) value in the session state, the writer
returns before reading its input — the result is the same for every input —
and leaves the entire session state unchanged, so the barrier never
overwrites a truthy committed artifact; in particular the regenerated
artifacts of the retry loop are never re-committed by these writers.  (A
falsy committed value, such as an empty dict, is the one exception the
source's truthiness check admits.) -/
theorem barrier_skip_on_truthy_value (key : String) (detect : List String) (st : WState)
    (inp : WInput) (h : truthyOptJ (lookupSt st key) = true) :
    writerRun key detect st inp = (st, [(LogLevel.info, "session_state_already_exists")]) ∧
    writerRun key detect st inp = writerRun key detect st WInput.absent := by
  have h1 : writerRun key detect st inp =
      (st, [(LogLevel.info, "session_state_already_exists")]) := by
    unfold writerRun
    rw [if_pos h]
  have h2 : writerRun key detect st WInput.absent =
      (st, [(LogLevel.info, "session_state_already_exists")]) := by
    unfold writerRun
    rw [if_pos h]
  exact ⟨h1, h1.trans h2.symm⟩

/-- C9 witness. -/
theorem barrier_skip_on_truthy_value_witness :
    writerRun "k" ["f"] [("k", .str "v")] (WInput.text "x") =
      ([("k", .str "v")], [(LogLevel.info, "session_state_already_exists")]) :=
  (barrier_skip_on_truthy_value "k" ["f"] [("k", .str "v")] (WInput.text "x") rfl).1

/-- C10: the reported success flag of a fetched artifact bundle is true
exactly when the parsed summary has `"status"` equal to the string `"PASS"`
or `"ok"` identical to `True`; a summary lacking both fields (the empty
summary included) yields `success = false`; and the `total`/`passed`/`failed`
step counters default to 0 whenever the `"stats"` object or its fields are
absent. -/
theorem artifacts_success_flag_semantics (a : ValidationArtifacts) :
    (a.success = true ↔
      dictGet a.summary "status" = some (.str "PASS") ∨
      dictGet a.summary "ok" = some (.bool true)) ∧
    (dictGet a.summary "status" = none → dictGet a.summary "ok" = none →
      a.success = false) ∧
    (dictGet a.summary "stats" = none →
      a.total_steps = .num 0 ∧ a.passed_steps = .num 0 ∧ a.failed_steps = .num 0) ∧
    (∀ l : List (String × JValue), dictGet a.summary "stats" = some (.obj l) →
      (dictGet l "total_steps" = none → a.total_steps = .num 0) ∧
      (dictGet l "passed" = none → a.passed_steps = .num 0) ∧
      (dictGet l "failed" = none → a.failed_steps = .num 0)) := by
  refine ⟨?_, ?_, ?_, ?_⟩
  · rw [show a.success = (pyEqStr (dictGet a.summary "status") "PASS" ||
        isIdentTrue (dictGet a.summary "ok")) from rfl]
    rw [Bool.or_eq_true, pyEqStr_eq_true_iff, isIdentTrue_eq_true_iff]
  · intro h1 h2
    rw [show a.success = (pyEqStr (dictGet a.summary "status") "PASS" ||
        isIdentTrue (dictGet a.summary "ok")) from rfl]
    rw [h1, h2]
    rfl
  · intro h
    unfold ValidationArtifacts.total_steps ValidationArtifacts.passed_steps
      ValidationArtifacts.failed_steps ValidationArtifacts.stats
    rw [h]
    exact ⟨rfl, rfl, rfl⟩
  · intro l h
    unfold ValidationArtifacts.total_steps ValidationArtifacts.passed_steps
      ValidationArtifacts.failed_steps ValidationArtifacts.stats
    rw [h]
    refine ⟨fun h2 => ?_, fun h2 => ?_, fun h2 => ?_⟩ <;> simp only [h2] <;> rfl

/-- C10 witness. -/
theorem artifacts_success_flag_semantics_witness :
    ValidationArtifacts.success ⟨"e", [("ok", .bool true)], none, []⟩ = true ∧
    ValidationArtifacts.success ⟨"e", [], none, []⟩ = false ∧
    ValidationArtifacts.total_steps ⟨"e", [], none, []⟩ = .num 0 :=
  ⟨(artifacts_success_flag_semantics ⟨"e", [("ok", .bool true)], none, []⟩).1.mpr (Or.inr rfl),
   (artifacts_success_flag_semantics ⟨"e", [], none, []⟩).2.1 rfl rfl,
   ((artifacts_success_flag_semantics ⟨"e", [], none, []⟩).2.2.1 rfl).1⟩
